import Mathlib

/-!
Verification of the daily-AI-news-digest pipeline
(`news_automation_tele.py` and `news_automation_fixed.py`).

Python strings are embedded as `List Char`; the Python operations used by the
pipeline (`str.split('\n\n')`, `len`, `+`, `str.strip()` truthiness, `str.lower`,
substring tests `in`) are translated to executable Lean functions below.
-/

namespace NewsAutomation

/-- Python strings, embedded as lists of characters. -/
abbrev Str := List Char

/-- The paragraph separator `"\n\n"` used by `to_telegram`. -/
def sepNN : Str := "\n\n".data

/-- `MAX_LENGTH = 4000` from `to_telegram` (Telegram safety buffer below 4096). -/
def MAX_LENGTH : Nat := 4000

/-- Python whitespace (the ASCII characters stripped by `str.strip()`). -/
def pyIsSpace (c : Char) : Bool :=
  c = ' ' || c = '\t' || c = '\n' || c = '\r' || c = Char.ofNat 11 || c = Char.ofNat 12

/-- Truthiness of `s.strip()` in Python: the stripped string is non-empty iff
some character of `s` is not whitespace. -/
def stripTruthy (s : Str) : Bool := s.any (fun c => !(pyIsSpace c))

/-- Python `s.lower()` (ASCII case folding, as applied to error texts). -/
def lower (s : Str) : Str := s.map Char.toLower

/-- Python `hay.startswith(needle)`, used to define the substring test. -/
def startsWithL : Str → Str → Bool
  | _, [] => true
  | [], _ :: _ => false
  | c :: cs, d :: ds => c == d && startsWithL cs ds

/-- Python substring test `needle in hay`. -/
def containsSub (hay needle : Str) : Bool :=
  match hay with
  | [] => startsWithL [] needle
  | c :: rest => startsWithL (c :: rest) needle || containsSub rest needle

/-- Python `s.split('\n\n')`: split on every occurrence of the two-character
separator, scanning left to right; adjacent separators yield empty parts and
the empty string yields `[""]`, exactly as in Python. -/
def splitNN : Str → List Str
  | [] => [[]]
  | [c] => [[c]]
  | c1 :: c2 :: rest =>
    if c1 = '\n' ∧ c2 = '\n' then
      [] :: splitNN rest
    else
      match splitNN (c2 :: rest) with
      | [] => [[c1]]
      | p :: ps => (c1 :: p) :: ps

/-- Concatenation of parts, each followed by the paragraph separator: the shape
of the buffer contents built by the `to_telegram` splitting loop. -/
def joinSep (ps : List Str) : Str := (ps.map (fun p => p ++ sepNN)).flatten

/-- The greedy paragraph-accumulation loop of `to_telegram` (identical in both
source files):

```python
for part in parts:
    if len(current_chunks) + len(part) + 2 < MAX_LENGTH:
        current_chunks += part + "\n\n"
    else:
        if current_chunks.strip():
            message_to_send.append(current_chunks)
        current_chunks = part + "\n\n"
if current_chunks.strip():
    message_to_send.append(current_chunks)
```

`acc` is `message_to_send`, `cur` is `current_chunks`. -/
def chunkLoop (parts : List Str) (acc : List Str) (cur : Str) : List Str :=
  match parts with
  | [] => if stripTruthy cur then acc ++ [cur] else acc
  | part :: rest =>
    if cur.length + part.length + 2 < MAX_LENGTH then
      chunkLoop rest acc (cur ++ part ++ sepNN)
    else
      chunkLoop rest (if stripTruthy cur then acc ++ [cur] else acc) (part ++ sepNN)

/-- The chunk list `message_to_send` computed by `to_telegram` for the text
`news`: one chunk when `len(news) <= MAX_LENGTH`, otherwise the greedy split of
`news.split('\n\n')`. -/
def to_telegram_chunks (news : Str) : List Str :=
  if news.length ≤ MAX_LENGTH then [news] else chunkLoop (splitNN news) [] []

/-- Removal of one trailing paragraph separator, as used to state the
lossless-reconstruction property of the chunk split. -/
def stripTrailingSep (s : Str) : Str :=
  if s.drop (s.length - 2) = sepNN then s.take (s.length - 2) else s

/-- Keyword `"quota"` checked by `generate_news` error classification. -/
def kwQuota : Str := "quota".data

/-- Keyword `"429"` checked by `generate_news` error classification. -/
def kw429 : Str := "429".data

/-- Keyword `"api_key"` checked by `generate_news` error classification. -/
def kwApiKey : Str := "api_key".data

/-- Keyword `"403"` checked by `generate_news` error classification. -/
def kw403 : Str := "403".data

/-- Keyword `"permission"` checked by `generate_news` error classification. -/
def kwPermission : Str := "permission".data

/-- Keyword `"timeout"` checked by several error classifications. -/
def kwTimeout : Str := "timeout".data

/-- Keyword `"deadline"` checked by `generate_news` error classification. -/
def kwDeadline : Str := "deadline".data

/-- Keyword `"safety"` checked by `generate_news` error classification. -/
def kwSafety : Str := "safety".data

/-- Keyword `"blocked"` checked by `generate_news` error classification. -/
def kwBlocked : Str := "blocked".data

/-- Keyword `"ratelimit"` checked by `search_news_in_ddgs`. -/
def kwRatelimit : Str := "ratelimit".data

/-- Keyword `"connection"` checked by the `to_telegram` send-error classification. -/
def kwConnection : Str := "connection".data

/-- Keyword `"dns"` checked by the `to_telegram` send-error classification. -/
def kwDns : Str := "dns".data

/-- Keyword `"ssl"` checked by the `to_telegram` send-error classification. -/
def kwSsl : Str := "ssl".data

/-- Sanitized quota message of `generate_news` (`news_automation_tele.py`). -/
def msgGenQuota : Str := "⏳ Error: Google AI API Quota Exceeded.".data

/-- Sanitized auth message of `generate_news` (`news_automation_tele.py`). -/
def msgGenAuth : Str := "🔑 Error: Google API Key is invalid or has restricted permissions.".data

/-- Sanitized timeout message of `generate_news` (`news_automation_tele.py`). -/
def msgGenTimeout : Str := "⏱️ Error: Request to Google AI timed out.".data

/-- Sanitized safety message of `generate_news` (`news_automation_tele.py`). -/
def msgGenSafety : Str := "🛡️ Error: AI response was blocked by safety filters.".data

/-- Sanitized generic message of `generate_news` (`news_automation_tele.py`). -/
def msgGenGeneric : Str := "❌ Error: News generation failed due to an unexpected system issue.".data

/-- Quota message of `generate_news` in `news_automation_fixed.py` (that file
stores the emoji bytes in a double-encoded form; copied verbatim). -/
def msgGenQuotaF : Str := "‚è≥ Error: Google AI API Quota Exceeded.".data

/-- Auth message of `generate_news` in `news_automation_fixed.py`. -/
def msgGenAuthF : Str := "üîë Error: Google API Key is invalid or has restricted permissions.".data

/-- Timeout message of `generate_news` in `news_automation_fixed.py`. -/
def msgGenTimeoutF : Str := "‚è±Ô∏è Error: Request to Google AI timed out.".data

/-- Safety message of `generate_news` in `news_automation_fixed.py`. -/
def msgGenSafetyF : Str := "üõ°Ô∏è Error: AI response was blocked by safety filters.".data

/-- Prefix of the generic branch of `generate_news` in `news_automation_fixed.py`:
`f"... Error: News generation failed due to an unexpected system issue -> {error_str}."` -/
def msgGenGenericPrefixF : Str :=
  "‚ùå Error: News generation failed due to an unexpected system issue -> ".data

/-- Error classification of `generate_news` in `news_automation_tele.py`
(lines 178-205): the raw error text is lowercased, keyword-matched, and a fixed
sanitized message is produced and raised. -/
def classify_generate_news_tele (e : Str) : Str :=
  let es := lower e
  if containsSub es kwQuota || containsSub es kw429 then msgGenQuota
  else if containsSub es kwApiKey || containsSub es kw403 || containsSub es kwPermission then
    msgGenAuth
  else if containsSub es kwTimeout || containsSub es kwDeadline then msgGenTimeout
  else if containsSub es kwSafety || containsSub es kwBlocked then msgGenSafety
  else msgGenGeneric

/-- Error classification of `generate_news` in `news_automation_fixed.py`
(lines 166-193): same keyword matching, but the generic branch interpolates the
lowercased raw error text into the message
(`f"... issue -> {error_str}."`). -/
def classify_generate_news_fixed (e : Str) : Str :=
  let es := lower e
  if containsSub es kwQuota || containsSub es kw429 then msgGenQuotaF
  else if containsSub es kwApiKey || containsSub es kw403 || containsSub es kwPermission then
    msgGenAuthF
  else if containsSub es kwTimeout || containsSub es kwDeadline then msgGenTimeoutF
  else if containsSub es kwSafety || containsSub es kwBlocked then msgGenSafetyF
  else msgGenGenericPrefixF ++ es ++ ".".data

/-- The exception text raised by `generate_news` in `news_automation_tele.py`
when the model response is empty. -/
def emptyResponseExn : Str := "News Generation Failed: Empty Response".data

/-- Response validation of `generate_news` in `news_automation_tele.py`
(lines 169-176) combined with its surrounding `try`/`except`: a provider error
or an empty/missing `response.text` ends in a raised classified error; a
non-empty text is returned.  `invoke` is the outcome of the provider call:
`Except.error e` for a raised exception with text `e`, `Except.ok t` for a
response whose `text` attribute is `t` (`none` models `None`). -/
def generate_news_tele (invoke : Except Str (Option Str)) : Except Str Str :=
  match invoke with
  | Except.error e => Except.error (classify_generate_news_tele e)
  | Except.ok respText =>
    match respText with
    | some t =>
      if 0 < t.length then Except.ok t
      else Except.error (classify_generate_news_tele emptyResponseExn)
    | none => Except.error (classify_generate_news_tele emptyResponseExn)

/-- One element of a structured agent output list in `news_automation_fixed.py`
(line 153-159): a dict carrying a `"text"` field, a plain string, or anything
else (which contributes nothing to the cleaned text). -/
inductive AgentPart where
  | textPart (s : Str)
  | strPart (s : Str)
  | otherPart
deriving DecidableEq

/-- The value under the `"output"` key of the agent response in
`news_automation_fixed.py`: either a plain string or a list structure. -/
inductive AgentOutput where
  | str (s : Str)
  | list (ps : List AgentPart)
deriving DecidableEq

/-- The substitute message of `generate_news` in `news_automation_fixed.py`
(lines 150 and 162). -/
def fallback_message : Str :=
  "Sorry, I am unable to process that scheduling request right now.".data

/-- Python `len` of the agent output value. -/
def outLen : AgentOutput → Nat
  | AgentOutput.str s => s.length
  | AgentOutput.list ps => ps.length

/-- Text contributed by one output-list element in the sanitizing loop of
`news_automation_fixed.py` (lines 154-159). -/
def partText : AgentPart → Str
  | AgentPart.textPart s => s
  | AgentPart.strPart s => s
  | AgentPart.otherPart => []

/-- The sanitizing loop of `news_automation_fixed.py` (lines 152-160). -/
def cleanOutput : AgentOutput → Str
  | AgentOutput.str s => s
  | AgentOutput.list ps => (ps.map partText).flatten

/-- Output validation of `generate_news` in `news_automation_fixed.py`
(lines 147-164): if `"output"` is present and non-empty the (cleaned) output is
used, otherwise `final_answer` is set to the substitute message; either way the
value is returned, never raised. `none` models a response without an
`"output"` key. -/
def validate_output_fixed (response : Option AgentOutput) : Str :=
  match response with
  | some out => if 0 < outLen out then cleanOutput out else fallback_message
  | none => fallback_message

/-- `generate_news` of `news_automation_fixed.py`: a raised provider error is
classified and re-raised; an agent response that reaches the validation block
is always returned (lines 147-164). -/
def generate_news_fixed (invoke : Except Str (Option AgentOutput)) : Except Str Str :=
  match invoke with
  | Except.error e => Except.error (classify_generate_news_fixed e)
  | Except.ok response => Except.ok (validate_output_fixed response)

/-- One DuckDuckGo search record: title, body snippet, source link. -/
structure SearchHit where
  title : Str
  body : Str
  href : Str
deriving DecidableEq

/-- Outcome of the provider call inside `search_news_in_ddgs`: a result list,
or a raised exception with text `msg`. -/
inductive SearchOutcome where
  | results (rs : List SearchHit)
  | exn (msg : Str)
deriving DecidableEq

/-- Return value of `search_news_in_ddgs`: the result list on success, or a
sentinel error string on failure (Python returns either type). -/
inductive DdgsRet where
  | results (rs : List SearchHit)
  | sentinel (msg : Str)
deriving DecidableEq

/-- Rate-limit sentinel of `search_news_in_ddgs`. -/
def msgSearchRate : Str := "Error: Search rate limit hit. Could not fetch news.".data

/-- Timeout sentinel of `search_news_in_ddgs`. -/
def msgSearchTimeout : Str := "Error: Search timed out.".data

/-- Generic sentinel of `search_news_in_ddgs`. -/
def msgSearchGeneric : Str := "Error: Search failed due to an unexpected system error.".data

/-- `search_news_in_ddgs` of `news_automation_tele.py` (lines 32-74): the
provider call either yields results (returned as is) or raises; a raised error
is lowercased and mapped to one of three fixed sentinel strings, never
re-raised. -/
def search_news_in_ddgs (query : Str) (outcome : SearchOutcome) : DdgsRet :=
  match outcome with
  | SearchOutcome.results rs => DdgsRet.results rs
  | SearchOutcome.exn e =>
    let es := lower e
    if containsSub es kwRatelimit then DdgsRet.sentinel msgSearchRate
    else if containsSub es kwTimeout then DdgsRet.sentinel msgSearchTimeout
    else DdgsRet.sentinel msgSearchGeneric

/-- Outcome of the page load inside `scrape_tool`: the `page_content` of each
loaded document, or a raised exception with text `msg`. -/
inductive ScrapeOutcome where
  | docs (pageContents : List Str)
  | exn (msg : Str)
deriving DecidableEq

/-- The label prepended to the raw error text by `scrape_tool`. -/
def scrapeErrLabel : Str := "Error reading the website: ".data

/-- `scrape_tool` of `news_automation_fixed.py` (lines 36-61): on success the
document texts are joined with `"\n"` and truncated to 10000 characters; on
failure the string `f"Error reading the website: {str(e)}"` is returned (the
raw error text is embedded, not lowercased). -/
def scrape_tool (url : Str) (outcome : ScrapeOutcome) : Str :=
  match outcome with
  | ScrapeOutcome.docs cs => (List.intercalate ("\n".data) cs).take 10000
  | ScrapeOutcome.exn e => scrapeErrLabel ++ e

/-- Outcome of one `requests.post` inside the `to_telegram` sending loop: an
HTTP status code, or a raised exception (connection error etc.) with text
`msg`. -/
inductive HttpOutcome where
  | status (code : Nat)
  | exn (msg : Str)
deriving DecidableEq

/-- The JSON payload of one `sendMessage` POST request. -/
structure Payload where
  chat_id : Str
  text : Str
  parse_mode : Str
deriving DecidableEq

/-- The `parse_mode` value `"Markdown"` of every payload. -/
def markdownMode : Str := "Markdown".data

/-- Network-failure message of the `to_telegram` send-error classification. -/
def msgSendNetwork : Str := "❌ Network Error: Failed to connect to Telegram API.".data

/-- Timeout message of the `to_telegram` send-error classification. -/
def msgSendTimeout : Str := "⏳ Timeout Error: Telegram API did not respond.".data

/-- SSL message of the `to_telegram` send-error classification. -/
def msgSendSsl : Str := "🔒 SSL Error: Certificate verification failed.".data

/-- Generic message of the `to_telegram` send-error classification. -/
def msgSendGeneric : Str := "❌ Telegram Send Failed: Unknown error occurred.".data

/-- The exception text `f"Telegram API Error: {response.status_code}"` raised
on a non-200 status. -/
def telegramApiErrorMsg (code : Nat) : Str :=
  "Telegram API Error: ".data ++ Nat.toDigits 10 code

/-- Send-error classification of `to_telegram` (lines 286-305 of
`news_automation_tele.py`): the caught exception text is lowercased,
keyword-matched, and a sanitized message is raised. -/
def classifySendErr (e : Str) : Str :=
  let es := lower e
  if containsSub es kwConnection || containsSub es kwDns then msgSendNetwork
  else if containsSub es kwTimeout then msgSendTimeout
  else if containsSub es kwSsl then msgSendSsl
  else msgSendGeneric

/-- The sending loop of `to_telegram` (lines 258-305): one POST per chunk, in
order; a 200 status continues with the next chunk; a non-200 status raises
`Telegram API Error: {code}`, which the same iteration's `except` classifies
and re-raises, ending the loop; a raised request exception is classified the
same way.  `oracle i` is the outcome of the `i`-th POST.  The result is the
list of POSTed payloads together with `Except.ok ()` for normal return or
`Except.error m` for a raised exception with message `m`. -/
def sendLoop (chatId : Str) (oracle : Nat → HttpOutcome) (i : Nat) :
    List Str → List Payload × Except Str Unit
  | [] => ([], Except.ok ())
  | chunk :: rest =>
    let p : Payload := ⟨chatId, chunk, markdownMode⟩
    match oracle i with
    | HttpOutcome.exn m => ([p], Except.error (classifySendErr m))
    | HttpOutcome.status code =>
      if code = 200 then
        let r := sendLoop chatId oracle (i + 1) rest
        (p :: r.1, r.2)
      else
        ([p], Except.error (classifySendErr (telegramApiErrorMsg code)))

/-- Python truthiness of a credential loaded with `os.getenv`: falsy when the
variable is absent (`None`) or set to the empty string. -/
def falsyOpt : Option Str → Bool
  | none => true
  | some s => s.isEmpty

/-- `to_telegram` (lines 210-305 of `news_automation_tele.py`, identical logic
in `news_automation_fixed.py`): if either credential is falsy, it prints a
warning and returns (no request); otherwise it splits `news` into chunks and
runs the sending loop.  The result lists the POST requests performed and
whether the task returned normally or raised. -/
def to_telegram (token chatId : Option Str) (oracle : Nat → HttpOutcome)
    (news : Str) : List Payload × Except Str Unit :=
  if falsyOpt token || falsyOpt chatId then ([], Except.ok ())
  else sendLoop (chatId.getD []) oracle 0 (to_telegram_chunks news)

/-- `retries=3` from the `@task` decorators on `generate_news` and
`to_telegram` (line 79 of `news_automation_tele.py`, line 73 of
`news_automation_fixed.py`). -/
def TASK_RETRIES : Nat := 3

/-- `retry_delay_seconds=5` from the same `@task` decorators. -/
def TASK_RETRY_DELAY_SECONDS : Nat := 5

/-- Modelled from the spec: the Prefect retry executor that interprets the
`@task(retries=..., retry_delay_seconds=...)` configuration is not part of this
repository's source.  Per the spec, retries are "purely sequential and
synchronous (sleep-based backoff), bounded per stage (3 attempts, fixed
delay)", and "a stage configured for 3 retries that always fails must attempt
exactly 3 times before surfacing a fatal error, with the configured delay
between attempts".  `stage i` is the outcome of attempt `i`; the fuel is the
configured retry count.  The result is (number of attempts made, list of
delays slept between consecutive attempts, final outcome). -/
def retryRun (delaySec : Nat) (stage : Nat → Except Str Str) (i : Nat) :
    Nat → Nat × List Nat × Except Str Str
  | 0 => (0, [], Except.error [])
  | 1 =>
    match stage i with
    | Except.ok v => (1, [], Except.ok v)
    | Except.error e => (1, [], Except.error e)
  | Nat.succ (Nat.succ m) =>
    match stage i with
    | Except.ok v => (1, [], Except.ok v)
    | Except.error _ =>
      let r := retryRun delaySec stage (i + 1) (Nat.succ m)
      (r.1 + 1, delaySec :: r.2.1, r.2.2)

/-- A task body run under the retry configuration of the `@task` decorators. -/
def run_prefect_task (stage : Nat → Except Str Str) : Nat × List Nat × Except Str Str :=
  retryRun TASK_RETRY_DELAY_SECONDS stage 0 TASK_RETRIES

end NewsAutomation

namespace NewsAutomation

theorem stripTrailingSep_append (x : Str) : stripTrailingSep (x ++ sepNN) = x := by
  have hlen : (x ++ sepNN).length - 2 = x.length := by
    simp [sepNN]
  rw [stripTrailingSep, hlen]
  rw [show (sepNN : Str) = "\n\n".data from rfl] at *
  rw [List.drop_left, if_pos rfl, List.take_left]

theorem stripTruthy_append_mid (x part y : Str) (h : stripTruthy part = true) :
    stripTruthy (x ++ part ++ y) = true := by
  simp only [stripTruthy, List.any_append, Bool.or_eq_true] at h ⊢
  tauto

end NewsAutomation

namespace NewsAutomation

theorem chunkLoop_flatten (parts : List Str) (acc : List Str) (cur : Str)
    (hparts : ∀ p ∈ parts, stripTruthy p = true)
    (hcur : cur = [] ∨ stripTruthy cur = true) :
    (chunkLoop parts acc cur).flatten = acc.flatten ++ cur ++ joinSep parts := by
  induction parts generalizing acc cur with
  | nil =>
    simp only [chunkLoop, joinSep, List.map_nil, List.flatten_nil, List.append_nil]
    rcases hcur with hc | hc
    · subst hc
      simp [stripTruthy]
    · rw [if_pos hc]
      simp
  | cons part rest ih =>
    have hpart : stripTruthy part = true := hparts part (by simp)
    have hrest : ∀ p ∈ rest, stripTruthy p = true := fun p hp => hparts p (by simp [hp])
    simp only [chunkLoop]
    split
    · rw [ih _ _ hrest (Or.inr (stripTruthy_append_mid cur part sepNN hpart))]
      simp [joinSep, List.append_assoc]
    · rw [ih _ _ hrest (Or.inr (by
        have := stripTruthy_append_mid [] part sepNN hpart
        simpa using this))]
      have hacc : (if stripTruthy cur then acc ++ [cur] else acc).flatten
          = acc.flatten ++ cur := by
        rcases hcur with hc | hc
        · subst hc
          simp [stripTruthy]
        · rw [if_pos hc]
          simp
      rw [hacc]
      simp [joinSep, List.append_assoc]

theorem chunkLoop_length_lt (parts : List Str) (acc : List Str) (cur : Str)
    (hparts : ∀ p ∈ parts, p.length + 2 < MAX_LENGTH)
    (hacc : ∀ ch ∈ acc, ch.length < MAX_LENGTH)
    (hcur : cur.length < MAX_LENGTH) :
    ∀ ch ∈ chunkLoop parts acc cur, ch.length < MAX_LENGTH := by
  induction parts generalizing acc cur with
  | nil =>
    intro ch hch
    simp only [chunkLoop] at hch
    split at hch
    · rcases List.mem_append.mp hch with h | h
      · exact hacc ch h
      · simp at h
        subst h
        exact hcur
    · exact hacc ch hch
  | cons part rest ih =>
    intro ch hch
    have hrest : ∀ p ∈ rest, p.length + 2 < MAX_LENGTH := fun p hp => hparts p (by simp [hp])
    simp only [chunkLoop] at hch
    split at hch
    · refine ih _ _ hrest hacc ?_ ch hch
      simpa [sepNN] using ‹cur.length + part.length + 2 < MAX_LENGTH›
    · refine ih _ _ hrest ?_ ?_ ch hch
      · intro c hc
        split at hc
        · rcases List.mem_append.mp hc with h | h
          · exact hacc c h
          · simp at h
            subst h
            exact hcur
        · exact hacc c hc
      · simpa [sepNN] using hparts part (by simp)

theorem chunkLoop_shape (parts : List Str) (acc : List Str) (cur : Str)
    (hacc : ∀ ch ∈ acc, (∃ p, ch = p ++ sepNN) ∧ stripTruthy ch = true)
    (hcur : cur = [] ∨ ∃ p, cur = p ++ sepNN) :
    ∀ ch ∈ chunkLoop parts acc cur,
      (∃ p, ch = p ++ sepNN) ∧ stripTruthy ch = true := by
  induction parts generalizing acc cur with
  | nil =>
    intro ch hch
    simp only [chunkLoop] at hch
    split at hch
    · rename_i hst
      rcases List.mem_append.mp hch with h | h
      · exact hacc ch h
      · simp at h
        subst h
        refine ⟨?_, hst⟩
        rcases hcur with hc | hc
        · subst hc
          simp [stripTruthy] at hst
        · exact hc
    · exact hacc ch hch
  | cons part rest ih =>
    intro ch hch
    simp only [chunkLoop] at hch
    split at hch
    · refine ih _ _ ?_ ?_ ch hch
      · exact hacc
      · exact Or.inr ⟨cur ++ part, by simp [List.append_assoc]⟩
    · refine ih _ _ ?_ (Or.inr ⟨part, rfl⟩) ch hch
      intro c hc
      split at hc
      · rename_i hst
        rcases List.mem_append.mp hc with h | h
        · exact hacc c h
        · simp at h
          subst h
          refine ⟨?_, hst⟩
          rcases hcur with h0 | h0
          · subst h0
            simp [stripTruthy] at hst
          · exact h0
      · exact hacc c hc

end NewsAutomation


namespace NewsAutomation

theorem splitNN_ne_nil (s : Str) : splitNN s ≠ [] := by
  match s with
  | [] => simp [splitNN]
  | [c] => simp [splitNN]
  | c1 :: c2 :: rest =>
    simp only [splitNN]
    split
    · simp
    · cases splitNN (c2 :: rest) <;> simp

theorem splitNN_no_nl (s : Str) : (∀ c ∈ s, c ≠ '\n') → splitNN s = [s] := by
  induction s using splitNN.induct with
  | case1 => intro _; rfl
  | case2 c => intro _; rfl
  | case3 c1 c2 rest hnn ih =>
    intro h
    exact absurd hnn.1 (h c1 (by simp))
  | case4 c1 c2 rest hnn hnil ih =>
    exact absurd hnil (splitNN_ne_nil _)
  | case5 c1 c2 rest hnn p ps hps ih =>
    intro h
    have h2 : splitNN (c2 :: rest) = [c2 :: rest] := by
      refine ih ?_
      intro c hc
      exact h c (by simp at hc ⊢; tauto)
    simp only [splitNN, if_neg hnn, h2]

theorem joinSep_splitNN (s : Str) : joinSep (splitNN s) = s ++ sepNN := by
  induction s using splitNN.induct with
  | case1 => simp [splitNN, joinSep]
  | case2 c => simp [splitNN, joinSep]
  | case3 c1 c2 rest hnn ih =>
    obtain ⟨h1, h2⟩ := hnn
    subst h1; subst h2
    have hsplit : splitNN ('\n' :: '\n' :: rest) = [] :: splitNN rest := by
      simp [splitNN]
    rw [hsplit]
    simp only [joinSep, List.map_cons, List.flatten_cons, List.nil_append] at ih ⊢
    rw [ih]
    simp [sepNN]
  | case4 c1 c2 rest hnn hnil ih =>
    exact absurd hnil (splitNN_ne_nil _)
  | case5 c1 c2 rest hnn p ps hps ih =>
    rw [hps] at ih
    simp only [splitNN, if_neg hnn, hps]
    simp only [joinSep, List.map_cons, List.flatten_cons] at ih ⊢
    simp only [List.cons_append, List.append_assoc] at ih ⊢
    rw [ih]

theorem sendLoop_all_ok (chatId : Str) (oracle : Nat → HttpOutcome)
    (hok : ∀ k, oracle k = HttpOutcome.status 200) (l : List Str) :
    ∀ i, sendLoop chatId oracle i l
      = (l.map (fun ch => (⟨chatId, ch, markdownMode⟩ : Payload)), Except.ok ()) := by
  induction l with
  | nil => intro i; rfl
  | cons chunk rest ih =>
    intro i
    simp only [sendLoop, hok i, List.map_cons]
    rw [ih (i + 1)]
    simp

theorem sendLoop_first_fail (chatId : Str) (oracle : Nat → HttpOutcome) (c : Nat)
    (hc : c ≠ 200) :
    ∀ (j : Nat) (l : List Str) (i : Nat), j < l.length →
      (∀ k, k < j → oracle (i + k) = HttpOutcome.status 200) →
      oracle (i + j) = HttpOutcome.status c →
      sendLoop chatId oracle i l
        = ((l.take (j + 1)).map (fun ch => (⟨chatId, ch, markdownMode⟩ : Payload)),
           Except.error (classifySendErr (telegramApiErrorMsg c))) := by
  intro j
  induction j with
  | zero =>
    intro l i hj hok hfail
    match l, hj with
    | chunk :: rest, _ =>
      rw [Nat.add_zero] at hfail
      simp only [sendLoop, hfail, List.take_succ_cons, List.take_zero, List.map_cons,
        List.map_nil, if_neg hc]
  | succ j ih =>
    intro l i hj hok hfail
    match l, hj with
    | chunk :: rest, hj2 =>
      have h0 : oracle i = HttpOutcome.status 200 := by
        have := hok 0 (Nat.succ_pos j)
        rwa [Nat.add_zero] at this
      simp only [sendLoop, h0, List.take_succ_cons, List.map_cons]
      rw [ih rest (i + 1) (Nat.lt_of_succ_lt_succ hj2)
        (fun k hk => by
          have := hok (k + 1) (Nat.succ_lt_succ hk)
          rwa [show i + (k + 1) = i + 1 + k by omega] at this)
        (by rwa [show i + 1 + j = i + (j + 1) by omega])]
      simp

theorem retryRun_all_fail (delaySec : Nat) (stage : Nat → Except Str Str)
    (hfail : ∀ i, ∃ e, stage i = Except.error e) :
    ∀ (n : Nat) (i : Nat), 0 < n →
      (retryRun delaySec stage i n).1 = n ∧
      (retryRun delaySec stage i n).2.1 = List.replicate (n - 1) delaySec ∧
      ∃ e, (retryRun delaySec stage i n).2.2 = Except.error e := by
  intro n
  induction n with
  | zero => intro i h; exact absurd h (by omega)
  | succ m ih =>
    intro i _
    obtain ⟨e, he⟩ := hfail i
    match m with
    | 0 =>
      simp only [retryRun, he]
      exact ⟨by simp, by simp, e, by simp⟩
    | Nat.succ k =>
      obtain ⟨h1, h2, e2, h3⟩ := ih (i + 1) (Nat.succ_pos k)
      simp only [retryRun, he]
      refine ⟨by rw [h1], ?_, e2, h3⟩
      rw [h2]
      simp [List.replicate_succ, Nat.succ_sub_one]

theorem falsyOpt_cons (a : Char) (l : List Char) : falsyOpt (some (a :: l)) = false := rfl

theorem falsyOpt_of_ne_nil (s : Str) (h : s ≠ []) : falsyOpt (some s) = false := by
  cases s with
  | nil => exact absurd rfl h
  | cons a l => rfl

theorem to_telegram_creds (tk cid : Str) (oracle : Nat → HttpOutcome) (news : Str)
    (htk : tk ≠ []) (hcid : cid ≠ []) :
    to_telegram (some tk) (some cid) oracle news
      = sendLoop cid oracle 0 (to_telegram_chunks news) := by
  rw [to_telegram, falsyOpt_of_ne_nil tk htk, falsyOpt_of_ne_nil cid hcid]
  rfl

theorem chunks_single_long_paragraph (news : Str)
    (hnl : ∀ c ∈ news, c ≠ '\n') (hlong : MAX_LENGTH < news.length)
    (hst : stripTruthy news = true) :
    to_telegram_chunks news = [news ++ sepNN] := by
  rw [to_telegram_chunks, if_neg (by omega), splitNN_no_nl news hnl]
  simp only [chunkLoop, List.length_nil, Nat.zero_add]
  rw [if_neg (by omega)]
  have h1 : stripTruthy ([] : Str) = false := rfl
  rw [h1]
  simp only [Bool.false_eq_true, if_false]
  have h2 : stripTruthy (news ++ sepNN) = true := by
    have := stripTruthy_append_mid [] news sepNN hst
    simpa using this
  rw [h2]
  simp

/-- Claim C4 (confirmed): for every input text, if the Telegram bot token or
the chat id is empty/missing, `to_telegram` performs zero HTTP requests and
returns normally without raising (lines 220-224 of `news_automation_tele.py`,
lines 208-212 of `news_automation_fixed.py`). -/
theorem c4_credential_guard_no_requests (token chatId : Option Str)
    (oracle : Nat → HttpOutcome) (news : Str)
    (h : falsyOpt token = true ∨ falsyOpt chatId = true) :
    to_telegram token chatId oracle news = ([], Except.ok ()) := by
  rw [to_telegram]
  rcases h with h | h <;> simp [h]

/-- Witness for `c4_credential_guard_no_requests`: a missing token with a
present chat id leads to zero requests and a normal return. -/
theorem c4_credential_guard_no_requests_witness :
    falsyOpt none = true ∧
    to_telegram none (some ("42".data)) (fun _ => HttpOutcome.status 200) ("hi".data)
      = ([], Except.ok ()) :=
  ⟨rfl, c4_credential_guard_no_requests none (some ("42".data))
    (fun _ => HttpOutcome.status 200) ("hi".data) (Or.inl rfl)⟩

/-- Claim C6 (confirmed): in the sending loop of `to_telegram`, when the first
`j` POSTs return status 200 and the `j`-th (0-based) returns a non-200 status,
exactly `j + 1` HTTP requests are performed (none after the failing chunk) and
the task raises the classified, labeled error (lines 258-305 of
`news_automation_tele.py`, lines 246-293 of `news_automation_fixed.py`). -/
theorem c6_send_loop_fail_fast (tk cid : Str) (oracle : Nat → HttpOutcome)
    (news : Str) (j c : Nat)
    (htk : tk ≠ []) (hcid : cid ≠ []) (hc : c ≠ 200)
    (hj : j < (to_telegram_chunks news).length)
    (hok : ∀ k, k < j → oracle k = HttpOutcome.status 200)
    (hfail : oracle j = HttpOutcome.status c) :
    (to_telegram (some tk) (some cid) oracle news).1.length = j + 1 ∧
    (to_telegram (some tk) (some cid) oracle news).2
      = Except.error (classifySendErr (telegramApiErrorMsg c)) := by
  rw [to_telegram_creds tk cid oracle news htk hcid]
  rw [sendLoop_first_fail cid oracle c hc j (to_telegram_chunks news) 0 hj
    (fun k hk => by simpa using hok k hk) (by simpa using hfail)]
  refine ⟨?_, rfl⟩
  simp only [List.length_map, List.length_take]
  omega

/-- Witness for `c6_send_loop_fail_fast`: with valid credentials, a one-chunk
message and a first POST answering 500, exactly one request is made and the
classified error is raised. -/
theorem c6_send_loop_fail_fast_witness :
    (("t".data : Str) ≠ []) ∧ (("c".data : Str) ≠ []) ∧ ((500 : Nat) ≠ 200) ∧
    0 < (to_telegram_chunks ("hello".data)).length ∧
    (to_telegram (some ("t".data)) (some ("c".data))
        (fun _ => HttpOutcome.status 500) ("hello".data)).1.length = 0 + 1 ∧
    (to_telegram (some ("t".data)) (some ("c".data))
        (fun _ => HttpOutcome.status 500) ("hello".data)).2
      = Except.error (classifySendErr (telegramApiErrorMsg 500)) := by
  have h := c6_send_loop_fail_fast ("t".data) ("c".data)
    (fun _ => HttpOutcome.status 500) ("hello".data) 0 500
    (by decide) (by decide) (by decide) (by decide)
    (fun k hk => absurd hk (Nat.not_lt_zero k)) rfl
  exact ⟨by decide, by decide, by decide, by decide, h.1, h.2⟩

/-- Claim C9 (confirmed): for every input text, when every HTTP response is a
success (status 200) and the credentials are present, `to_telegram` issues
exactly one POST per chunk and the sequence of posted texts equals the chunk
sequence in its original order (lines 258-284 of `news_automation_tele.py`,
lines 246-272 of `news_automation_fixed.py`). -/
theorem c9_one_post_per_chunk_in_order (tk cid : Str) (oracle : Nat → HttpOutcome)
    (news : Str) (htk : tk ≠ []) (hcid : cid ≠ [])
    (hok : ∀ k, oracle k = HttpOutcome.status 200) :
    to_telegram (some tk) (some cid) oracle news
      = ((to_telegram_chunks news).map
          (fun ch => (⟨cid, ch, markdownMode⟩ : Payload)), Except.ok ()) := by
  rw [to_telegram_creds tk cid oracle news htk hcid]
  exact sendLoop_all_ok cid oracle hok (to_telegram_chunks news) 0

/-- Witness for `c9_one_post_per_chunk_in_order`: valid credentials, an
always-200 oracle and a short message yield one POST carrying the single
chunk. -/
theorem c9_one_post_per_chunk_in_order_witness :
    (("t".data : Str) ≠ []) ∧ (("c".data : Str) ≠ []) ∧
    to_telegram (some ("t".data)) (some ("c".data))
        (fun _ => HttpOutcome.status 200) ("hi".data)
      = ((to_telegram_chunks ("hi".data)).map
          (fun ch => (⟨"c".data, ch, markdownMode⟩ : Payload)), Except.ok ()) :=
  ⟨by decide, by decide,
    c9_one_post_per_chunk_in_order ("t".data) ("c".data)
      (fun _ => HttpOutcome.status 200) ("hi".data)
      (by decide) (by decide) (fun k => rfl)⟩

/-- Claim C10 (confirmed): whenever `to_telegram` takes the splitting branch
(input longer than `MAX_LENGTH`), every chunk placed into `message_to_send`
ends with the two-character separator `"\n\n"` and contains at least one
non-whitespace character (lines 237-256 of `news_automation_tele.py`,
lines 225-244 of `news_automation_fixed.py`). -/
theorem c10_split_branch_chunk_shape (news : Str)
    (h : MAX_LENGTH < news.length) :
    ∀ ch ∈ to_telegram_chunks news,
      (∃ p, ch = p ++ sepNN) ∧ stripTruthy ch = true := by
  rw [to_telegram_chunks, if_neg (by omega)]
  exact chunkLoop_shape (splitNN news) [] [] (by simp) (Or.inl rfl)

/-- Witness for `c10_split_branch_chunk_shape`: a 4001-character input takes
the splitting branch and every resulting chunk has the stated shape. -/
theorem c10_split_branch_chunk_shape_witness :
    MAX_LENGTH < (List.replicate 4001 'a').length ∧
    ∀ ch ∈ to_telegram_chunks (List.replicate 4001 'a'),
      (∃ p, ch = p ++ sepNN) ∧ stripTruthy ch = true := by
  have h : MAX_LENGTH < (List.replicate 4001 'a').length := by
    rw [List.length_replicate]
    decide
  exact ⟨h, c10_split_branch_chunk_shape (List.replicate 4001 'a') h⟩

/-- Claim C7 (confirmed, spec-modelled): a stage under the configured retry
policy (`retries=3, retry_delay_seconds=5`) that always fails is attempted
exactly 3 times in total, with the fixed 5-second delay between consecutive
attempts, before a fatal error is surfaced. -/
theorem c7_retry_bound_three_attempts (stage : Nat → Except Str Str)
    (hfail : ∀ i, ∃ e, stage i = Except.error e) :
    (run_prefect_task stage).1 = TASK_RETRIES ∧
    (run_prefect_task stage).2.1
      = [TASK_RETRY_DELAY_SECONDS, TASK_RETRY_DELAY_SECONDS] ∧
    ∃ e, (run_prefect_task stage).2.2 = Except.error e := by
  obtain ⟨h1, h2, h3⟩ := retryRun_all_fail TASK_RETRY_DELAY_SECONDS stage hfail
    TASK_RETRIES 0 (by decide)
  refine ⟨h1, ?_, h3⟩
  rw [show run_prefect_task stage
    = retryRun TASK_RETRY_DELAY_SECONDS stage 0 TASK_RETRIES from rfl, h2]
  rfl

/-- Witness for `c7_retry_bound_three_attempts`: a stage that always raises is
attempted 3 times with two 5-second delays before failing. -/
theorem c7_retry_bound_three_attempts_witness :
    (∀ i : Nat, ∃ e, (fun _ : Nat => (Except.error ("boom".data) : Except Str Str)) i
      = Except.error e) ∧
    (run_prefect_task (fun _ => Except.error ("boom".data))).1 = TASK_RETRIES ∧
    (run_prefect_task (fun _ => Except.error ("boom".data))).2.1
      = [TASK_RETRY_DELAY_SECONDS, TASK_RETRY_DELAY_SECONDS] ∧
    ∃ e, (run_prefect_task (fun _ => Except.error ("boom".data))).2.2
      = Except.error e :=
  ⟨fun i => ⟨"boom".data, rfl⟩,
    c7_retry_bound_three_attempts (fun _ => Except.error ("boom".data))
      (fun i => ⟨"boom".data, rfl⟩)⟩

/-- The chunk split of the input `"\n\n" ++ 4000 * "a"` (length 4002, above the
ceiling): the loop reaches the flush point with a whitespace-only buffer
(`"\n\n"`), drops it, and the leading separator is lost. -/
theorem chunks_of_c1_input :
    to_telegram_chunks (sepNN ++ List.replicate 4000 'a')
      = [List.replicate 4000 'a' ++ sepNN] := by
  have hlen : (sepNN ++ List.replicate 4000 'a').length = 4002 := by
    rw [List.length_append, List.length_replicate]
    rfl
  rw [to_telegram_chunks, hlen, if_neg (by decide)]
  have hsplit : splitNN (sepNN ++ List.replicate 4000 'a')
      = [] :: [List.replicate 4000 'a'] := by
    rw [show sepNN ++ List.replicate 4000 'a'
      = '\n' :: '\n' :: List.replicate 4000 'a' from rfl]
    rw [show splitNN ('\n' :: '\n' :: List.replicate 4000 'a')
      = [] :: splitNN (List.replicate 4000 'a') from rfl]
    rw [splitNN_no_nl (List.replicate 4000 'a')
      (fun c hc => by rw [List.eq_of_mem_replicate hc]; decide)]
  rw [hsplit]
  simp only [chunkLoop, List.length_nil, List.length_replicate]
  rw [if_pos (by decide)]
  have hsep : ([] : Str) ++ [] ++ sepNN = sepNN := by simp
  rw [hsep]
  have hlen2 : (sepNN : Str).length = 2 := rfl
  rw [hlen2, if_neg (by decide)]
  have hs1 : stripTruthy sepNN = false := rfl
  rw [hs1]
  simp only [Bool.false_eq_true, if_false]
  have hs2 : stripTruthy (List.replicate 4000 'a' ++ sepNN) = true := by
    have := stripTruthy_append_mid [] (List.replicate 4000 'a') sepNN
      (List.any_eq_true.mpr
        ⟨'a', List.mem_replicate.mpr ⟨by decide, rfl⟩, by decide⟩)
    rwa [List.nil_append] at this
  rw [hs2]
  rw [if_pos rfl, List.nil_append]

/-- Claim C1 (refuted as stated): the input `"\n\n" ++ 4000 * "a"` is longer
than the ceiling, yet the concatenation of the produced chunks with the
trailing separator stripped is `4000 * "a"`, not the original text — the
whitespace-only buffer holding the leading separator is dropped at the flush
point, so reconstruction is lossy. -/
theorem c1_lossless_counterexample :
    MAX_LENGTH < (sepNN ++ List.replicate 4000 'a').length ∧
    stripTrailingSep (to_telegram_chunks (sepNN ++ List.replicate 4000 'a')).flatten
      ≠ sepNN ++ List.replicate 4000 'a' := by
  constructor
  · rw [List.length_append, List.length_replicate]
    decide
  · rw [chunks_of_c1_input]
    simp only [List.flatten_cons, List.flatten_nil, List.append_nil]
    rw [stripTrailingSep_append]
    intro h
    have := congrArg List.length h
    rw [List.length_replicate, List.length_append, List.length_replicate] at this
    simp [sepNN] at this

/-- Claim C1 (amended, proved): for every input text longer than the ceiling
in which every double-newline-separated paragraph contains a non-whitespace
character (so no whitespace-only buffer is ever dropped), the concatenation of
all chunks with the trailing paragraph separator stripped equals the original
input text. -/
theorem c1_lossless_reconstruction_amended (news : Str)
    (hlong : MAX_LENGTH < news.length)
    (hparts : ∀ p ∈ splitNN news, stripTruthy p = true) :
    stripTrailingSep (to_telegram_chunks news).flatten = news := by
  rw [to_telegram_chunks, if_neg (by omega)]
  rw [chunkLoop_flatten (splitNN news) [] [] hparts (Or.inl rfl)]
  simp only [List.flatten_nil, List.nil_append]
  rw [joinSep_splitNN]
  exact stripTrailingSep_append news

/-- Witness for `c1_lossless_reconstruction_amended`: the single-paragraph
input `4001 * "b"` satisfies both hypotheses and is reconstructed exactly. -/
theorem c1_lossless_reconstruction_amended_witness :
    MAX_LENGTH < (List.replicate 4001 'b').length ∧
    (∀ p ∈ splitNN (List.replicate 4001 'b'), stripTruthy p = true) ∧
    stripTrailingSep (to_telegram_chunks (List.replicate 4001 'b')).flatten
      = List.replicate 4001 'b' := by
  have h1 : MAX_LENGTH < (List.replicate 4001 'b').length := by
    rw [List.length_replicate]
    decide
  have h2 : ∀ p ∈ splitNN (List.replicate 4001 'b'), stripTruthy p = true := by
    rw [splitNN_no_nl (List.replicate 4001 'b')
      (fun c hc => by rw [List.eq_of_mem_replicate hc]; decide)]
    intro p hp
    rw [List.mem_singleton] at hp
    subst hp
    exact List.any_eq_true.mpr
      ⟨'b', List.mem_replicate.mpr ⟨by decide, rfl⟩, by decide⟩
  exact ⟨h1, h2, c1_lossless_reconstruction_amended (List.replicate 4001 'b') h1 h2⟩

/-- Claim C2 (refuted as stated): the single-paragraph input `4003 * "a"`
produces one chunk of length 4005 (the paragraph plus the appended
separator), exceeding the 4000-character ceiling — the loop never splits a
single oversized paragraph. -/
theorem c2_ceiling_counterexample :
    ¬ ∀ ch ∈ to_telegram_chunks (List.replicate 4003 'a'),
        ch.length ≤ MAX_LENGTH := by
  intro hall
  have hchunks : to_telegram_chunks (List.replicate 4003 'a')
      = [List.replicate 4003 'a' ++ sepNN] := by
    apply chunks_single_long_paragraph
    · intro c hc
      rw [List.eq_of_mem_replicate hc]
      decide
    · rw [List.length_replicate]
      decide
    · exact List.any_eq_true.mpr
        ⟨'a', List.mem_replicate.mpr ⟨by decide, rfl⟩, by decide⟩
  have := hall (List.replicate 4003 'a' ++ sepNN)
    (by rw [hchunks]; exact List.mem_singleton.mpr rfl)
  rw [List.length_append, List.length_replicate] at this
  simp [sepNN, MAX_LENGTH] at this

/-- Claim C2 (amended, proved): every chunk respects the 4000-character
ceiling provided every double-newline-separated paragraph of the input is
short enough to fit under the ceiling together with its separator
(`len(part) + 2 < 4000`); the code never splits a single oversized
paragraph. -/
theorem c2_chunk_ceiling_amended (news : Str)
    (hparts : ∀ p ∈ splitNN news, p.length + 2 < MAX_LENGTH) :
    ∀ ch ∈ to_telegram_chunks news, ch.length ≤ MAX_LENGTH := by
  rw [to_telegram_chunks]
  split
  · intro ch hch
    rw [List.mem_singleton] at hch
    subst hch
    assumption
  · intro ch hch
    exact Nat.le_of_lt (chunkLoop_length_lt (splitNN news) [] [] hparts
      (by simp) (by decide) ch hch)

/-- Witness for `c2_chunk_ceiling_amended`: the input `"a"` has one short
paragraph and every chunk respects the ceiling. -/
theorem c2_chunk_ceiling_amended_witness :
    (∀ p ∈ splitNN ("a".data), p.length + 2 < MAX_LENGTH) ∧
    ∀ ch ∈ to_telegram_chunks ("a".data), ch.length ≤ MAX_LENGTH := by
  have h : ∀ p ∈ splitNN ("a".data), p.length + 2 < MAX_LENGTH := by decide
  exact ⟨h, c2_chunk_ceiling_amended ("a".data) h⟩

/-- Claim C3 (code bug in `news_automation_fixed.py`): the generic fallback
branch of the `generate_news` error classification interpolates the raw
(lowercased) error text into the propagated message
(`f"... issue -> {error_str}."`), so a secret substring of the raw provider
error reappears verbatim in the propagated error — contradicting the
adjacent comment "STRICTLY GENERIC MESSAGE - NO RAW DATA LEAKAGE".  Evaluated
at the raw error `"secretkey123 mishap"` (which matches no classification
keyword) with the secret `"secretkey123"`. -/
theorem c3_fixed_generic_branch_leaks_secret :
    containsSub ("secretkey123 mishap".data) ("secretkey123".data) = true ∧
    containsSub (classify_generate_news_fixed ("secretkey123 mishap".data))
      ("secretkey123".data) = true := by
  decide

/-- Claim C5 (code bug in `news_automation_fixed.py`): when the agent response
has no `"output"` key, or an empty output value, `generate_news` returns the
substitute message "Sorry, I am unable to process that scheduling request
right now." normally instead of raising — contradicting the adjacent comment
"If not, trigger a Prefect retry" and forwarding a substitute message for
dispatch. -/
theorem c5_fixed_returns_substitute_message :
    generate_news_fixed (Except.ok none) = Except.ok fallback_message ∧
    generate_news_fixed (Except.ok (some (AgentOutput.str [])))
      = Except.ok fallback_message :=
  ⟨rfl, rfl⟩

/-- Claim C8 (refuted as stated): `scrape_tool` does not map failures to
sentinel strings — two generic failures produce two different return values,
each embedding the raw error text verbatim, and no rate-limit/timeout
classification exists in that helper. -/
theorem c8_scrape_sentinel_counterexample :
    scrape_tool [] (ScrapeOutcome.exn ("boom alpha".data))
      ≠ scrape_tool [] (ScrapeOutcome.exn ("boom beta".data)) ∧
    containsSub (scrape_tool [] (ScrapeOutcome.exn ("boom alpha".data)))
      ("boom alpha".data) = true := by
  constructor
  · decide
  · decide

/-- Claim C8 (amended, proved): both Collector helpers return a value for
every outcome (no raw exception propagates); `search_news_in_ddgs` maps
rate-limit, timeout and generic failures to three pairwise-distinct fixed
sentinel strings, while `scrape_tool` maps every failure to the labeled
string `"Error reading the website: " ++ raw`, embedding the raw error text
without further classification. -/
theorem c8_collector_failure_mapping_amended (q u eR eT eG e : Str)
    (hR : containsSub (lower eR) kwRatelimit = true)
    (hT1 : containsSub (lower eT) kwRatelimit = false)
    (hT2 : containsSub (lower eT) kwTimeout = true)
    (hG1 : containsSub (lower eG) kwRatelimit = false)
    (hG2 : containsSub (lower eG) kwTimeout = false) :
    search_news_in_ddgs q (SearchOutcome.exn eR) = DdgsRet.sentinel msgSearchRate ∧
    search_news_in_ddgs q (SearchOutcome.exn eT) = DdgsRet.sentinel msgSearchTimeout ∧
    search_news_in_ddgs q (SearchOutcome.exn eG) = DdgsRet.sentinel msgSearchGeneric ∧
    msgSearchRate ≠ msgSearchTimeout ∧
    msgSearchRate ≠ msgSearchGeneric ∧
    msgSearchTimeout ≠ msgSearchGeneric ∧
    scrape_tool u (ScrapeOutcome.exn e) = scrapeErrLabel ++ e := by
  refine ⟨?_, ?_, ?_, by decide, by decide, by decide, rfl⟩
  · simp [search_news_in_ddgs, hR]
  · simp [search_news_in_ddgs, hT1, hT2]
  · simp [search_news_in_ddgs, hG1, hG2]

/-- Witness for `c8_collector_failure_mapping_amended`: concrete rate-limit,
timeout and generic errors exercise the three sentinel branches and a concrete
scrape failure yields the labeled string. -/
theorem c8_collector_failure_mapping_amended_witness :
    containsSub (lower ("RateLimit hit".data)) kwRatelimit = true ∧
    containsSub (lower ("timed out: timeout".data)) kwRatelimit = false ∧
    containsSub (lower ("timed out: timeout".data)) kwTimeout = true ∧
    containsSub (lower ("kaput".data)) kwRatelimit = false ∧
    containsSub (lower ("kaput".data)) kwTimeout = false ∧
    search_news_in_ddgs ("q".data) (SearchOutcome.exn ("RateLimit hit".data))
      = DdgsRet.sentinel msgSearchRate ∧
    search_news_in_ddgs ("q".data) (SearchOutcome.exn ("timed out: timeout".data))
      = DdgsRet.sentinel msgSearchTimeout ∧
    search_news_in_ddgs ("q".data) (SearchOutcome.exn ("kaput".data))
      = DdgsRet.sentinel msgSearchGeneric ∧
    scrape_tool ("u".data) (ScrapeOutcome.exn ("x".data)) = scrapeErrLabel ++ "x".data := by
  have h := c8_collector_failure_mapping_amended ("q".data) ("u".data)
    ("RateLimit hit".data) ("timed out: timeout".data) ("kaput".data) ("x".data)
    (by decide) (by decide) (by decide) (by decide) (by decide)
  exact ⟨by decide, by decide, by decide, by decide, by decide,
    h.1, h.2.1, h.2.2.1, h.2.2.2.2.2.2⟩

end NewsAutomation
